import Mathlib

/-!
Verification of the snapbit-api service against its specification.

The repository consists of near-duplicate variants of one Express service:
  - src/index.js lines 1-162   ("variant A"): logger, health-only API-key
    gate, determineLeague classifier, GET /tokens and POST /tokens/add
    implemented with findOne/create/save.
  - src/index.js lines 163-456 ("variant B"): full service with OAuth
    callback, calculateLeague classifier, upsert-based ledger routes and
    POST /tokens/register.
  - src/unnamed/part_000: full service whose OAuth callback signs a JWT
    and whose failure paths redirect to the front end with an error code.
  - src/unnamed/part_001: full service whose OAuth callback redirects to
    /auth with an error code on failure.
  - src/unnamed/part_002: minimal ledger-only variant.
  - src/unnamed/part_003: variant-A-style ledger with determineLeague and
    an add route that marks users registered.

This file shallowly embeds the data model (the mongoose Token schema),
the two league classifiers, the ledger operations, the API-key gate and
the OAuth callback handlers, and proves the claims about them.
MongoDB is modelled as a list of records keyed by userId (the schema
declares a unique index on userId); network calls made by the callback
are modelled as oracle inputs describing the outcome of each fetch.
-/

/-- The mongoose Token schema shared by all variants:
userId (unique key), tokens (Number, default 0), league (String, default
Bronze), isRegistered (Boolean, default false). JS numbers are modelled
as Int: the routes never reject negative amounts. -/
structure UserRecord where
  userId : String
  tokens : Int
  league : String
  isRegistered : Bool
deriving DecidableEq, Repr

/-- The document store: a list of records. The unique index on userId is
modelled by setRecord, which replaces every record with the written key. -/
abbrev Store := List UserRecord

/-- Token.findOne({userId}): first record with the given userId. -/
def findRecord : Store → String → Option UserRecord
  | [], _ => none
  | r :: rest, u => if r.userId = u then some r else findRecord rest u

/-- Records of a store other than those with the given userId. -/
def removeRecord : Store → String → Store
  | [], _ => []
  | r :: rest, u => if r.userId = u then removeRecord rest u
                    else r :: removeRecord rest u

/-- Writing a record back (create / save / findOneAndUpdate): the new
record replaces any record with the same userId. -/
def setRecord (s : Store) (r : UserRecord) : Store :=
  r :: removeRecord s r.userId

/-- calculateLeague from src/unnamed/part_000 lines 52-58 (identical in
part_001 lines 51-57 and index.js lines 204-210). -/
def calculateLeague (tokenCount : Int) : String :=
  if tokenCount ≥ 50 then "Diamond"
  else if tokenCount ≥ 30 then "Sapphire"
  else if tokenCount ≥ 20 then "Gold"
  else if tokenCount ≥ 10 then "Silver"
  else "Bronze"

/-- determineLeague from src/index.js lines 70-80 (identical in
src/unnamed/part_003 lines 41-51). -/
def determineLeague (tokenCount : Int) : String :=
  if tokenCount ≥ 2000 then "Diamond"
  else if tokenCount ≥ 1000 then "Obsidian"
  else if tokenCount ≥ 500 then "Ruby"
  else if tokenCount ≥ 200 then "Emerald"
  else if tokenCount ≥ 100 then "Sapphire"
  else if tokenCount ≥ 50 then "Platinum"
  else if tokenCount ≥ 20 then "Gold"
  else if tokenCount ≥ 10 then "Silver"
  else "Bronze"

/-- The ordered (minimumBalance, tierLabel) table of calculateLeague,
transcribed from its if-chain, highest threshold first. -/
def calcLeagueTable : List (Int × String) :=
  [(50, "Diamond"), (30, "Sapphire"), (20, "Gold"), (10, "Silver")]

/-- The ordered (minimumBalance, tierLabel) table of determineLeague,
transcribed from its if-chain, highest threshold first. -/
def detLeagueTable : List (Int × String) :=
  [(2000, "Diamond"), (1000, "Obsidian"), (500, "Ruby"), (200, "Emerald"),
   (100, "Sapphire"), (50, "Platinum"), (20, "Gold"), (10, "Silver")]

/-- First-match lookup over a threshold table, highest threshold first,
with a fallback label for balances below every threshold. -/
def tableClassify (table : List (Int × String)) (fallback : String)
    (b : Int) : String :=
  match table with
  | [] => fallback
  | (t, label) :: rest => if b ≥ t then label else tableClassify rest fallback b

/-- Rank of each calculateLeague tier label, ordered by opening
threshold (Bronze opens at no threshold and ranks lowest). -/
def calcLeagueRank (l : String) : Nat :=
  if l = "Diamond" then 4
  else if l = "Sapphire" then 3
  else if l = "Gold" then 2
  else if l = "Silver" then 1
  else 0

/-- Rank of each determineLeague tier label, ordered by opening threshold. -/
def detLeagueRank (l : String) : Nat :=
  if l = "Diamond" then 8
  else if l = "Obsidian" then 7
  else if l = "Ruby" then 6
  else if l = "Emerald" then 5
  else if l = "Sapphire" then 4
  else if l = "Platinum" then 3
  else if l = "Gold" then 2
  else if l = "Silver" then 1
  else 0

/-- Whether the thresholds of a table are strictly descending, so that
its head is the highest-threshold (top) tier. -/
def tableDescending : List (Int × String) → Bool
  | [] => true
  | [_] => true
  | a :: b :: rest => a.1 > b.1 && tableDescending (b :: rest)

theorem calculateLeague_eq_table (b : Int) :
    calculateLeague b = tableClassify calcLeagueTable "Bronze" b := rfl

theorem determineLeague_eq_table (b : Int) :
    determineLeague b = tableClassify detLeagueTable "Bronze" b := rfl

/-- A JSON field value as used by the res.json bodies of this service. -/
inductive JVal where
  | str (s : String)
  | int (n : Int)
  | bool (b : Bool)
deriving DecidableEq, Repr

/-- A response from the ledger routes: res.json with a status and an
ordered field list, or the express default 404 for an unmatched route. -/
inductive LedgerResponse where
  | json (status : Nat) (fields : List (String × JVal))
  | notFound (msg : String)
deriving DecidableEq, Repr

/-- Lookup of a field in a response body. -/
def lookupField (fields : List (String × JVal)) (k : String) : Option JVal :=
  (fields.find? (fun p => decide (p.1 = k))).map (fun p => p.2)

/-- Fields of a response (none for the 404 default). -/
def LedgerResponse.fields : LedgerResponse → List (String × JVal)
  | .json _ fs => fs
  | .notFound _ => []

/-- GET /tokens core (src/unnamed/part_001 lines 167-188, identical in
part_000 lines 176-197 and index.js lines 379-409), after the missing
userId check: findOne; if absent create a zero record; else recompute the
league from the stored tokens and save it if it changed; respond with the
record fields. -/
def getTokensOp (s : Store) (u : String) : Store × LedgerResponse :=
  match findRecord s u with
  | none =>
    let record : UserRecord :=
      { userId := u, tokens := 0, league := "Bronze", isRegistered := false }
    (setRecord s record,
     .json 200 [("userId", .str record.userId), ("tokens", .int record.tokens),
                ("league", .str record.league),
                ("isRegistered", .bool record.isRegistered)])
  | some record =>
    let newLeague := calculateLeague record.tokens
    let record1 :=
      if newLeague ≠ record.league then { record with league := newLeague }
      else record
    let s1 :=
      if newLeague ≠ record.league then setRecord s record1 else s
    (s1,
     .json 200 [("userId", .str record1.userId), ("tokens", .int record1.tokens),
                ("league", .str record1.league),
                ("isRegistered", .bool record1.isRegistered)])

/-- POST /tokens/add core for the upsert variants (src/unnamed/part_001
lines 190-210, identical in part_000 lines 200-223 and index.js lines
412-436): findOneAndUpdate with an atomic increment and upsert (an insert
receives the schema defaults and tokens 0 + amount), then recompute the
league and save it if it changed; respond with userId, newTotal, league. -/
def addTokensOp (s : Store) (u : String) (amount : Int) : Store × LedgerResponse :=
  let record :=
    match findRecord s u with
    | none => { userId := u, tokens := amount, league := "Bronze",
                isRegistered := false : UserRecord }
    | some r => { r with tokens := r.tokens + amount }
  let s1 := setRecord s record
  let updatedLeague := calculateLeague record.tokens
  let record1 :=
    if updatedLeague ≠ record.league then { record with league := updatedLeague }
    else record
  let s2 :=
    if updatedLeague ≠ record.league then setRecord s1 record1 else s1
  (s2,
   .json 200 [("userId", .str record1.userId), ("newTotal", .int record1.tokens),
              ("league", .str record1.league)])

/-- POST /tokens/register core (src/unnamed/part_000 lines 226-236,
identical in part_001 lines 212-222 and index.js lines 439-451):
findOneAndUpdate setting isRegistered true, upsert with defaults on
insert; respond with userId and isRegistered only (no league field). -/
def registerOp (s : Store) (u : String) : Store × LedgerResponse :=
  let record :=
    match findRecord s u with
    | none => { userId := u, tokens := 0, league := "Bronze",
                isRegistered := true : UserRecord }
    | some r => { r with isRegistered := true }
  (setRecord s record,
   .json 200 [("userId", .str record.userId),
              ("isRegistered", .bool record.isRegistered)])

/-- POST /tokens/add core for the findOne/save variants
(src/unnamed/part_003 lines 81-106, identical in index.js lines 121-154):
findOne, create a zero record if absent, mark registered, add the amount,
set the league from determineLeague, save; respond with the request
userId, newTotal and league. -/
def addTokensLegacyOp (s : Store) (u : String) (amount : Int) :
    Store × LedgerResponse :=
  let record0 :=
    match findRecord s u with
    | none => { userId := u, tokens := 0, league := "Bronze",
                isRegistered := false : UserRecord }
    | some r => r
  let record1 :=
    if record0.isRegistered then record0
    else { record0 with isRegistered := true }
  let record2 := { record1 with tokens := record1.tokens + amount }
  let record3 := { record2 with league := determineLeague record2.tokens }
  (setRecord s record3,
   .json 200 [("userId", .str u), ("newTotal", .int record3.tokens),
              ("league", .str record3.league)])

/-- JS truthiness of an optional string request field: undefined and the
empty string are falsy. -/
def jsTruthy (o : Option String) : Bool :=
  match o with
  | none => false
  | some s => !decide (s = "")

/-- Route-level POST /tokens/add with the field validation of the upsert
variants: if (!userId or typeof amount is not number) respond 400. -/
def addRouteUpsert (s : Store) (userId : Option String) (amount : Option Int) :
    Store × LedgerResponse :=
  match userId, amount with
  | some u, some a =>
    if u = "" then (s, .json 400 [("error", .str "Missing or invalid fields")])
    else addTokensOp s u a
  | _, _ => (s, .json 400 [("error", .str "Missing or invalid fields")])

/-- Route-level POST /tokens/add of the findOne/save variants (same
validation, determineLeague core). -/
def addRouteLegacy (s : Store) (userId : Option String) (amount : Option Int) :
    Store × LedgerResponse :=
  match userId, amount with
  | some u, some a =>
    if u = "" then (s, .json 400 [("error", .str "Missing or invalid fields")])
    else addTokensLegacyOp s u a
  | _, _ => (s, .json 400 [("error", .str "Missing or invalid fields")])

/-- Route-level GET /tokens: if (!userId) respond 400 Missing userId. -/
def getRoute (s : Store) (userId : Option String) : Store × LedgerResponse :=
  match userId with
  | some u =>
    if u = "" then (s, .json 400 [("error", .str "Missing userId")])
    else getTokensOp s u
  | none => (s, .json 400 [("error", .str "Missing userId")])

/-- Route-level POST /tokens/register: if (!userId) respond 400. -/
def registerRoute (s : Store) (userId : Option String) : Store × LedgerResponse :=
  match userId with
  | some u =>
    if u = "" then (s, .json 400 [("error", .str "Missing userId")])
    else registerOp s u
  | none => (s, .json 400 [("error", .str "Missing userId")])

/-- The three ledger operations of the full variants, post-validation. -/
inductive LedgerOp where
  | read (u : String)
  | add (u : String) (amount : Int)
  | register (u : String)

/-- Dispatch of a ledger operation to its handler. -/
def applyOp (s : Store) : LedgerOp → Store × LedgerResponse
  | .read u => getTokensOp s u
  | .add u a => addTokensOp s u a
  | .register u => registerOp s u

/-- JS String.prototype.startsWith, on the character lists. -/
def listLeads : List Char → List Char → Bool
  | [], _ => true
  | _ :: _, [] => false
  | a :: as, b :: bs => a = b && listLeads as bs

/-- path.startsWith(p) as used by the API-key middleware. -/
def jsStartsWith (s p : String) : Bool := listLeads p.data s.data

/-- The exemption test of the API-key middleware of the full variants
(src/unnamed/part_001 lines 70-74, identical in part_000 lines 71-75 and
index.js lines 227-231): exact /health, or a path starting with /auth or
with /oauth/. -/
def gateExempt (path : String) : Bool :=
  decide (path = "/health") || jsStartsWith path "/auth" ||
    jsStartsWith path "/oauth/"

/-- The API-key middleware of the full variants (src/unnamed/part_001
lines 69-82): skip exempt paths; otherwise take the Authorization header
(empty string when absent) and answer 401 json unless it equals
Bearer API_KEY; none means next() was called. -/
def apiKeyGate (key path : String) (authHeader : Option String) :
    Option LedgerResponse :=
  if gateExempt path then none
  else
    let auth := match authHeader with | none => "" | some a => a
    if auth = "Bearer " ++ key then none
    else some (.json 401 [("error", .str "Unauthorized")])

/-- An inbound HTTP request as seen by the gate and the ledger routes. -/
structure HttpRequest where
  method : String
  path : String
  authHeader : Option String
  queryUserId : Option String
  bodyUserId : Option String
  bodyAmount : Option Int

/-- Route dispatch of the full variants for the health and ledger routes
(the OAuth routes are modelled separately since they read cookies and
call the provider; they are all gate-exempt). The Bool records whether a
route handler ran (express falls through to its 404 default otherwise). -/
def routeLedger (s : Store) (req : HttpRequest) : Store × LedgerResponse × Bool :=
  if req.method = "GET" ∧ req.path = "/health" then
    (s, .json 200 [("status", .str "ok")], true)
  else if req.method = "GET" ∧ req.path = "/tokens" then
    let (s1, r) := getRoute s req.queryUserId
    (s1, r, true)
  else if req.method = "POST" ∧ req.path = "/tokens/add" then
    let (s1, r) := addRouteUpsert s req.bodyUserId req.bodyAmount
    (s1, r, true)
  else if req.method = "POST" ∧ req.path = "/tokens/register" then
    let (s1, r) := registerRoute s req.bodyUserId
    (s1, r, true)
  else
    (s, .notFound ("Cannot " ++ req.method ++ " " ++ req.path), false)

/-- The app pipeline of the full variants: API-key gate, then routing.
When the gate answers, no route handler runs and the store is untouched. -/
def appHandle (key : String) (s : Store) (req : HttpRequest) :
    Store × LedgerResponse × Bool :=
  match apiKeyGate key req.path req.authHeader with
  | some resp => (s, resp, false)
  | none => routeLedger s req

/-- Uppercase hexadecimal digit for a value below 16. -/
def hexUpperChar (n : Nat) : Char :=
  if n < 10 then Char.ofNat (48 + n) else Char.ofNat (55 + n)

/-- UTF-8 bytes of a Unicode code point. -/
def utf8Bytes (n : Nat) : List Nat :=
  if n < 0x80 then [n]
  else if n < 0x800 then [0xC0 + n / 0x40, 0x80 + n % 0x40]
  else if n < 0x10000 then
    [0xE0 + n / 0x1000, 0x80 + n / 0x40 % 0x40, 0x80 + n % 0x40]
  else
    [0xF0 + n / 0x40000, 0x80 + n / 0x1000 % 0x40, 0x80 + n / 0x40 % 0x40,
     0x80 + n % 0x40]

/-- Characters left unescaped by JS encodeURIComponent: alphanumerics and
- _ . ! ~ * ( ) and the apostrophe (code 39). -/
def uriUnreserved (c : Char) : Bool :=
  c.isAlpha || c.isDigit || "-_.!~*()".data.contains c || c = Char.ofNat 39

/-- Percent-escape of one byte, for example 37 to the three characters
of its escape. -/
def percentEncodeByte (b : Nat) : List Char :=
  [Char.ofNat 37, hexUpperChar (b / 16 % 16), hexUpperChar (b % 16)]

/-- encodeURIComponent on a character list. -/
def encodeURIChars : List Char → List Char
  | [] => []
  | c :: cs =>
    (if uriUnreserved c then [c]
     else (utf8Bytes c.toNat).foldr (fun b acc => percentEncodeByte b ++ acc) [])
      ++ encodeURIChars cs

/-- JS encodeURIComponent. -/
def encodeURIComponent (s : String) : String := String.mk (encodeURIChars s.data)

/-- Value of a hexadecimal digit character. -/
def hexVal (c : Char) : Option Nat :=
  if 48 ≤ c.toNat ∧ c.toNat ≤ 57 then some (c.toNat - 48)
  else if 65 ≤ c.toNat ∧ c.toNat ≤ 70 then some (c.toNat - 55)
  else if 97 ≤ c.toNat ∧ c.toNat ≤ 102 then some (c.toNat - 87)
  else none

/-- decodeURIComponent on a character list, modelled for ASCII input:
a percent escape decodes to its byte when below 128; a malformed escape
or a multi-byte sequence yields none, standing for the URIError that JS
decodeURIComponent throws. None of the verified claims evaluates this on
a multi-byte escape. -/
def decodeURIChars : List Char → Option (List Char)
  | [] => some []
  | c :: cs =>
    if c = Char.ofNat 37 then
      match cs with
      | h1 :: h2 :: rest =>
        match hexVal h1, hexVal h2 with
        | some a, some b =>
          let byte := a * 16 + b
          if byte < 0x80 then
            (decodeURIChars rest).map (fun l => Char.ofNat byte :: l)
          else none
        | _, _ => none
      | _ => none
    else (decodeURIChars cs).map (fun l => c :: l)

/-- JS decodeURIComponent (none stands for a thrown URIError). -/
def decodeURIComponent (s : String) : Option String :=
  (decodeURIChars s.data).map String.mk

/-- JS a or-else b for an optional string field: b when a is undefined or
the empty string. -/
def jsOrStr (a : Option String) (b : String) : String :=
  match a with
  | none => b
  | some s => if s = "" then b else s

/-- Parsed token-endpoint response body, as used by the callbacks. -/
structure TokenData where
  access_token : String
deriving DecidableEq, Repr

/-- Parsed userinfo response body. sub is taken as present (the handlers
read it without checking); the name fields are optional claims used by
the part_000 JWT payload. -/
structure UserInfo where
  sub : String
  name : Option String
  preferred_username : Option String
  nickname : Option String
deriving DecidableEq, Repr

/-- Outcome of one await fetch as observed by the handler: ok carries the
parsed JSON body of a 2xx response; httpError is a response with ok false
(status and body text); thrown covers a network error or a JSON-parse
throw, both of which land in the catch block. -/
inductive FetchSim (α : Type) where
  | ok (val : α)
  | httpError (status : Nat) (body : String)
  | thrown
deriving DecidableEq, Repr

/-- Whether a fetch outcome took the ok branch. -/
def FetchSim.isOk {α : Type} : FetchSim α → Bool
  | .ok _ => true
  | _ => false

/-- The same outcome with the provider response body text blanked;
used to state that a handler never forwards the provider body. -/
def FetchSim.scrubBody {α : Type} : FetchSim α → FetchSim α
  | .httpError st _ => .httpError st ""
  | x => x

/-- Query parameters of GET /oauth/callback. -/
structure CallbackQuery where
  code : Option String
  state : Option String
  error : Option String
  error_description : Option String
deriving DecidableEq, Repr

/-- Oracle for the two provider calls the callback can make. -/
structure CallbackEnv where
  tokenResult : FetchSim TokenData
  userinfoResult : FetchSim UserInfo
deriving DecidableEq, Repr

/-- The JWT payload built by the part_000 callback. -/
structure JwtPayload where
  sub : String
  name : String
  displayName : String
  iat : Nat
  exp : Nat
deriving DecidableEq, Repr

/-- Oracle for the part_000 callback: provider calls, the clock read by
Date.now, and jwt.sign with the configured RS256 private key (the
signing primitive is outside the modelled code, as the spec scopes it). -/
structure CallbackEnvP0 where
  tokenResult : FetchSim TokenData
  userinfoResult : FetchSim UserInfo
  nowSeconds : Nat
  jwtSign : JwtPayload → String

/-- Steps a callback invocation can take, in trace order. -/
inductive CallbackStep where
  | tokenCall
  | userinfoCall
  | ledgerMutation
deriving DecidableEq, Repr

/-- A response sent by a callback handler: res.redirect, res.status.send,
or the URIError thrown by decodeURIComponent on malformed input (index.js
variant only). -/
inductive WebResponse where
  | redirect (url : String)
  | send (status : Nat) (body : String)
  | uriError
deriving DecidableEq, Repr

/-- Result of one callback invocation: the response, whether
res.clearCookie was called on oauth_state, and the provider-call trace. -/
structure CallbackResult where
  response : WebResponse
  clearsStateCookie : Bool
  calls : List CallbackStep
deriving DecidableEq, Repr

/-- The state check of every callback: invalid when returnedState is
falsy or differs (strict equality) from the oauth_state cookie. -/
def stateValidB (returned cookie : Option String) : Bool :=
  match returned with
  | none => false
  | some s => !decide (s = "") && decide (cookie = some s)

/-- GET /oauth/callback of src/unnamed/part_001 lines 102-165: an error
query parameter redirects to /auth with the encoded error; a state
mismatch redirects with state_mismatch; a failed or thrown token exchange
redirects with token_exchange_failed or token_exchange_error; a failed or
thrown userinfo fetch redirects with userinfo_failed or userinfo_error;
on success the oauth_state cookie is cleared and the browser is sent to
the dashboard with the sub as userId. The cookie is cleared nowhere else.
The handler never touches the ledger store. -/
def oauthCallbackP1 (q : CallbackQuery) (cookie : Option String)
    (env : CallbackEnv) : CallbackResult :=
  if jsTruthy q.error then
    { response := .redirect ("/auth?error=" ++ encodeURIComponent (jsOrStr q.error "")),
      clearsStateCookie := false, calls := [] }
  else if !stateValidB q.state cookie then
    { response := .redirect "/auth?error=state_mismatch",
      clearsStateCookie := false, calls := [] }
  else
    match env.tokenResult with
    | .thrown =>
      { response := .redirect "/auth?error=token_exchange_error",
        clearsStateCookie := false, calls := [.tokenCall] }
    | .httpError _ _ =>
      { response := .redirect "/auth?error=token_exchange_failed",
        clearsStateCookie := false, calls := [.tokenCall] }
    | .ok _tokenData =>
      match env.userinfoResult with
      | .thrown =>
        { response := .redirect "/auth?error=userinfo_error",
          clearsStateCookie := false, calls := [.tokenCall, .userinfoCall] }
      | .httpError _ _ =>
        { response := .redirect "/auth?error=userinfo_failed",
          clearsStateCookie := false, calls := [.tokenCall, .userinfoCall] }
      | .ok userInfo =>
        { response := .redirect
            ("https://snapbitportal.web.app/dashboard?userId=" ++ userInfo.sub),
          clearsStateCookie := true, calls := [.tokenCall, .userinfoCall] }

/-- GET /oauth/callback of src/unnamed/part_000 lines 103-173: the same
control flow as part_001, with redirects to the front-end origin and, on
success, a signed JWT carrying sub, a display-name fallback chain, iat
and a sixty-second expiry, sent as the token query parameter. -/
def oauthCallbackP0 (q : CallbackQuery) (cookie : Option String)
    (env : CallbackEnvP0) : CallbackResult :=
  if jsTruthy q.error then
    { response := .redirect
        ("https://snapbitportal.web.app?error=" ++ encodeURIComponent (jsOrStr q.error "")),
      clearsStateCookie := false, calls := [] }
  else if !stateValidB q.state cookie then
    { response := .redirect "https://snapbitportal.web.app?error=state_mismatch",
      clearsStateCookie := false, calls := [] }
  else
    match env.tokenResult with
    | .thrown =>
      { response := .redirect "https://snapbitportal.web.app?error=token_exchange_error",
        clearsStateCookie := false, calls := [.tokenCall] }
    | .httpError _ _ =>
      { response := .redirect "https://snapbitportal.web.app?error=token_exchange_failed",
        clearsStateCookie := false, calls := [.tokenCall] }
    | .ok _tokenData =>
      match env.userinfoResult with
      | .thrown =>
        { response := .redirect "https://snapbitportal.web.app?error=userinfo_error",
          clearsStateCookie := false, calls := [.tokenCall, .userinfoCall] }
      | .httpError _ _ =>
        { response := .redirect "https://snapbitportal.web.app?error=userinfo_failed",
          clearsStateCookie := false, calls := [.tokenCall, .userinfoCall] }
      | .ok userInfo =>
        let payload : JwtPayload :=
          { sub := userInfo.sub,
            name := jsOrStr userInfo.preferred_username
                      (jsOrStr userInfo.nickname userInfo.sub),
            displayName := jsOrStr userInfo.name userInfo.sub,
            iat := env.nowSeconds,
            exp := env.nowSeconds + 60 }
        { response := .redirect
            ("https://snapbitportal.web.app/dashboard?token=" ++
              encodeURIComponent (env.jwtSign payload)),
          clearsStateCookie := true, calls := [.tokenCall, .userinfoCall] }

/-- GET /oauth/callback of src/index.js lines 267-376 (the intended
control flow: the file keeps a dead duplicate of the replaced
token-exchange block at lines 324-343, which is unreachable text): an
error query parameter answers 400 with a text body built from the
decoded error_description; a state mismatch answers 400 with an inline
HTML message; a failed token exchange answers with the provider status
and a fixed message, a thrown one with 500; a failed userinfo fetch
answers 500; on success the cookie is cleared and the browser redirected
to the dashboard. -/
def oauthCallbackIdx (q : CallbackQuery) (cookie : Option String)
    (env : CallbackEnv) : CallbackResult :=
  if jsTruthy q.error then
    match decodeURIComponent (jsOrStr q.error_description "No description") with
    | some desc =>
      { response := .send 400
          ("Authorization failed: " ++ jsOrStr q.error "" ++ " — " ++ desc),
        clearsStateCookie := false, calls := [] }
    | none =>
      { response := .uriError, clearsStateCookie := false, calls := [] }
  else if !stateValidB q.state cookie then
    { response := .send 400
        ("Security check failed (state mismatch).<br>" ++
         "Ensure you accessed via HTTPS and that cookies are enabled."),
      clearsStateCookie := false, calls := [] }
  else
    match env.tokenResult with
    | .thrown =>
      { response := .send 500 "Error during Roblox token exchange.",
        clearsStateCookie := false, calls := [.tokenCall] }
    | .httpError status _ =>
      { response := .send status "Failed to exchange code for tokens (see server logs).",
        clearsStateCookie := false, calls := [.tokenCall] }
    | .ok _tokenData =>
      match env.userinfoResult with
      | .thrown =>
        { response := .send 500 "Error fetching Roblox user info.",
          clearsStateCookie := false, calls := [.tokenCall, .userinfoCall] }
      | .httpError _ _ =>
        { response := .send 500 "Failed to fetch Roblox user info.",
          clearsStateCookie := false, calls := [.tokenCall, .userinfoCall] }
      | .ok userInfo =>
        { response := .redirect
            ("https://snapbitportal.web.app/dashboard?userId=" ++ userInfo.sub),
          clearsStateCookie := true, calls := [.tokenCall, .userinfoCall] }

/-- Whether the store holds a registered record for a user. -/
def isRegisteredIn (s : Store) (u : String) : Bool :=
  match findRecord s u with
  | some r => r.isRegistered
  | none => false

/-- A found record carries the looked-up userId. -/
theorem findRecord_userId {s : Store} {u : String} {r : UserRecord}
    (h : findRecord s u = some r) : r.userId = u := by
  induction s with
  | nil => simp [findRecord] at h
  | cons x xs ih =>
    by_cases hx : x.userId = u
    · rw [findRecord, if_pos hx] at h
      cases h; exact hx
    · rw [findRecord, if_neg hx] at h
      exact ih h

theorem findRecord_removeRecord (s : Store) (v u : String) (h : v ≠ u) :
    findRecord (removeRecord s v) u = findRecord s u := by
  induction s with
  | nil => rfl
  | cons x xs ih =>
    by_cases hx : x.userId = v
    · have hu : x.userId ≠ u := by rw [hx]; exact h
      rw [removeRecord, if_pos hx, ih, findRecord, if_neg hu]
    · by_cases hu : x.userId = u
      · rw [removeRecord, if_neg hx, findRecord, if_pos hu, findRecord, if_pos hu]
      · rw [removeRecord, if_neg hx, findRecord, if_neg hu, ih, findRecord, if_neg hu]

/-- findRecord after setRecord: the written record for its own key,
unchanged lookup for every other key. -/
theorem findRecord_setRecord (s : Store) (r : UserRecord) (u : String) :
    findRecord (setRecord s r) u =
      if r.userId = u then some r else findRecord s u := by
  by_cases h : r.userId = u
  · rw [setRecord, findRecord, if_pos h, if_pos h]
  · rw [setRecord, findRecord, if_neg h, if_neg h]
    exact findRecord_removeRecord s r.userId u h

theorem mem_removeRecord {s : Store} {v : String} {x : UserRecord}
    (h : x ∈ removeRecord s v) : x ∈ s ∧ x.userId ≠ v := by
  induction s with
  | nil => simp [removeRecord] at h
  | cons y ys ih =>
    by_cases hy : y.userId = v
    · rw [removeRecord, if_pos hy] at h
      exact ⟨List.mem_cons_of_mem y (ih h).1, (ih h).2⟩
    · rw [removeRecord, if_neg hy] at h
      rcases List.mem_cons.mp h with h1 | h1
      · exact ⟨h1 ▸ List.mem_cons_self y ys, h1 ▸ hy⟩
      · exact ⟨List.mem_cons_of_mem y (ih h1).1, (ih h1).2⟩

/-- Membership in a store after setRecord: the written record, or an
untouched record with a different key. -/
theorem mem_setRecord {s : Store} {r x : UserRecord}
    (h : x ∈ setRecord s r) : x = r ∨ (x ∈ s ∧ x.userId ≠ r.userId) := by
  rcases List.mem_cons.mp h with h1 | h1
  · exact Or.inl h1
  · exact Or.inr (mem_removeRecord h1)

/-- A found record is a member of the store. -/
theorem findRecord_mem {s : Store} {u : String} {r : UserRecord}
    (h : findRecord s u = some r) : r ∈ s := by
  induction s with
  | nil => simp [findRecord] at h
  | cons x xs ih =>
    by_cases hx : x.userId = u
    · rw [findRecord, if_pos hx] at h
      injection h with h2
      rw [← h2]
      exact List.mem_cons_self x xs
    · rw [findRecord, if_neg hx] at h
      exact List.mem_cons_of_mem x (ih h)

/-- isRegisteredIn after setRecord. -/
theorem isRegisteredIn_setRecord (s : Store) (r : UserRecord) (u : String) :
    isRegisteredIn (setRecord s r) u =
      if r.userId = u then r.isRegistered else isRegisteredIn s u := by
  unfold isRegisteredIn
  rw [findRecord_setRecord]
  by_cases h : r.userId = u <;> simp [h]

/-- calcLeagueRank of calculateLeague as a step function of the balance. -/
theorem calcLeagueRank_calculateLeague (b : Int) :
    calcLeagueRank (calculateLeague b) =
      if b ≥ 50 then 4 else if b ≥ 30 then 3 else if b ≥ 20 then 2
      else if b ≥ 10 then 1 else 0 := by
  unfold calculateLeague
  split_ifs <;> decide

/-- detLeagueRank of determineLeague as a step function of the balance. -/
theorem detLeagueRank_determineLeague (b : Int) :
    detLeagueRank (determineLeague b) =
      if b ≥ 2000 then 8 else if b ≥ 1000 then 7 else if b ≥ 500 then 6
      else if b ≥ 200 then 5 else if b ≥ 100 then 4 else if b ≥ 50 then 3
      else if b ≥ 20 then 2 else if b ≥ 10 then 1 else 0 := by
  unfold determineLeague
  split_ifs <;> decide

/-- Fresh user record fixture used by concrete runs. -/
def fxFresh : Store :=
  [{ userId := "U1", tokens := 0, league := "Bronze", isRegistered := false }]

/-- Userinfo fixture. -/
def fxUser : UserInfo := { sub := "123", name := none,
                           preferred_username := none, nickname := none }

/-- Callback query fixture with a code and a state and no error. -/
def fxQuery : CallbackQuery :=
  { code := some "abc", state := some "xyz", error := none,
    error_description := none }

/-- Environment in which both provider calls succeed. -/
def fxEnvOk : CallbackEnv :=
  { tokenResult := .ok { access_token := "tok" }, userinfoResult := .ok fxUser }

/-- Environment in which the token exchange answers 500. -/
def fxEnvTokenFail : CallbackEnv :=
  { tokenResult := .httpError 500 "bad gateway", userinfoResult := .ok fxUser }

/-- Environment in which the userinfo fetch answers 503. -/
def fxEnvUserinfoFail : CallbackEnv :=
  { tokenResult := .ok { access_token := "tok" },
    userinfoResult := .httpError 503 "upstream text" }

/-- part_000 environment in which both provider calls succeed. -/
def fxEnvP0 : CallbackEnvP0 :=
  { tokenResult := .ok { access_token := "tok" }, userinfoResult := .ok fxUser,
    nowSeconds := 1000, jwtSign := fun _ => "signedjwt" }

set_option maxHeartbeats 2000000 in
/-- C6: the league classifiers are monotone in the balance under the
rank order given by opening thresholds, and a balance exactly equal to a
threshold belongs to the tier that threshold opens. -/
theorem C6_theorem_classifier_monotone :
    (∀ b1 b2 : Int, b1 ≤ b2 →
      calcLeagueRank (calculateLeague b1) ≤ calcLeagueRank (calculateLeague b2)) ∧
    (∀ b1 b2 : Int, b1 ≤ b2 →
      detLeagueRank (determineLeague b1) ≤ detLeagueRank (determineLeague b2)) ∧
    (calculateLeague 10 = "Silver" ∧ calculateLeague 20 = "Gold" ∧
     calculateLeague 30 = "Sapphire" ∧ calculateLeague 50 = "Diamond" ∧
     calculateLeague 9 = "Bronze" ∧ calculateLeague 49 = "Sapphire") ∧
    (determineLeague 10 = "Silver" ∧ determineLeague 20 = "Gold" ∧
     determineLeague 50 = "Platinum" ∧ determineLeague 100 = "Sapphire" ∧
     determineLeague 200 = "Emerald" ∧ determineLeague 500 = "Ruby" ∧
     determineLeague 1000 = "Obsidian" ∧ determineLeague 2000 = "Diamond" ∧
     determineLeague 1999 = "Obsidian") := by
  refine ⟨?_, ?_, by decide, by decide⟩
  · intro b1 b2 h
    rw [calcLeagueRank_calculateLeague, calcLeagueRank_calculateLeague]
    split_ifs <;> omega
  · intro b1 b2 h
    rw [detLeagueRank_determineLeague, detLeagueRank_determineLeague]
    split_ifs <;> omega

theorem C6_witness :
    calcLeagueRank (calculateLeague 12) ≤ calcLeagueRank (calculateLeague 52) ∧
    detLeagueRank (determineLeague 12) ≤ detLeagueRank (determineLeague 52) :=
  ⟨C6_theorem_classifier_monotone.1 12 52 (by decide),
   C6_theorem_classifier_monotone.2.1 12 52 (by decide)⟩

/-- C1 (amended): starting from a fresh record, the upsert /tokens/add of
part_000, part_001 and the second index.js variant returns newTotal 12
with league Silver for amount 12, and then newTotal 52 with league
Diamond for amount 40; Diamond is the top (highest-threshold) tier of the
calculateLeague table, which the classifier realises by first match. -/
theorem C1_theorem_calc_variant_add_sequence :
    (addRouteUpsert fxFresh (some "U1") (some 12)).2 =
      .json 200 [("userId", .str "U1"), ("newTotal", .int 12),
                 ("league", .str "Silver")] ∧
    (addRouteUpsert (addRouteUpsert fxFresh (some "U1") (some 12)).1
        (some "U1") (some 40)).2 =
      .json 200 [("userId", .str "U1"), ("newTotal", .int 52),
                 ("league", .str "Diamond")] ∧
    calcLeagueTable.head? = some (50, "Diamond") ∧
    tableDescending calcLeagueTable = true ∧
    (∀ b : Int, calculateLeague b = tableClassify calcLeagueTable "Bronze" b) :=
  ⟨by decide, by decide, rfl, by decide, fun _ => rfl⟩

/-- C1 (counterexample): in the determineLeague variant (index.js lines
70-154, part_003), the same add sequence returns league Platinum for the
52-token total, and Platinum is not the top tier Diamond of that
classifier table, so the claim as stated fails on that variant. -/
theorem C1_counterexample_det_variant_not_top_tier :
    (addRouteLegacy fxFresh (some "U1") (some 12)).2 =
      .json 200 [("userId", .str "U1"), ("newTotal", .int 12),
                 ("league", .str "Silver")] ∧
    (addRouteLegacy (addRouteLegacy fxFresh (some "U1") (some 12)).1
        (some "U1") (some 40)).2 =
      .json 200 [("userId", .str "U1"), ("newTotal", .int 52),
                 ("league", .str "Platinum")] ∧
    detLeagueTable.head? = some (2000, "Diamond") ∧
    "Platinum" ≠ "Diamond" :=
  ⟨by decide, by decide, rfl, by decide⟩

/-- C3 (counterexample): a state-mismatch invocation of the part_001
callback responds with the state_mismatch redirect without clearing the
oauth_state cookie, so the cookie is not cleared on every path. -/
theorem C3_counterexample_error_path_keeps_cookie :
    (oauthCallbackP1 fxQuery (some "other") fxEnvOk).clearsStateCookie = false ∧
    (oauthCallbackP1 fxQuery (some "other") fxEnvOk).response =
      .redirect "/auth?error=state_mismatch" := by
  constructor <;> rfl

/-- C3 (amended): in every callback variant the oauth_state cookie is
cleared exactly on the success path — no error parameter, valid state,
and both provider calls succeeding; on every failure path the cookie is
left in place. -/
theorem C3_theorem_cookie_cleared_only_on_success :
    ∀ (q : CallbackQuery) (c : Option String) (env : CallbackEnv)
      (env0 : CallbackEnvP0),
    ((oauthCallbackP1 q c env).clearsStateCookie = true ↔
      (jsTruthy q.error = false ∧ stateValidB q.state c = true ∧
       env.tokenResult.isOk = true ∧ env.userinfoResult.isOk = true)) ∧
    ((oauthCallbackP0 q c env0).clearsStateCookie = true ↔
      (jsTruthy q.error = false ∧ stateValidB q.state c = true ∧
       env0.tokenResult.isOk = true ∧ env0.userinfoResult.isOk = true)) ∧
    ((oauthCallbackIdx q c env).clearsStateCookie = true ↔
      (jsTruthy q.error = false ∧ stateValidB q.state c = true ∧
       env.tokenResult.isOk = true ∧ env.userinfoResult.isOk = true)) := by
  intro q c env env0
  refine ⟨?_, ?_, ?_⟩
  · cases hqe : jsTruthy q.error <;>
    cases hsv : stateValidB q.state c <;>
    cases htr : env.tokenResult <;>
    cases hui : env.userinfoResult <;>
    simp [oauthCallbackP1, hqe, hsv, htr, hui, FetchSim.isOk]
  · cases hqe : jsTruthy q.error <;>
    cases hsv : stateValidB q.state c <;>
    cases htr : env0.tokenResult <;>
    cases hui : env0.userinfoResult <;>
    simp [oauthCallbackP0, hqe, hsv, htr, hui, FetchSim.isOk]
  · cases hqe : jsTruthy q.error
    · cases hsv : stateValidB q.state c <;>
      cases htr : env.tokenResult <;>
      cases hui : env.userinfoResult <;>
      simp [oauthCallbackIdx, hqe, hsv, htr, hui, FetchSim.isOk]
    · rcases hd : decodeURIComponent (jsOrStr q.error_description "No description")
        with _ | d <;>
      simp [oauthCallbackIdx, hqe, hd]

/-- C4: within one callback invocation of part_001 or part_000 the steps
are hard-gated in order: a provider call happens only after the error
parameter is absent and the state validates; the identity-retrieval call
happens only after a successful token exchange and always follows it in
the trace; a token-endpoint failure yields zero identity-retrieval calls;
and no invocation mutates the ledger. -/
theorem C4_theorem_callback_step_gating :
    ∀ (q : CallbackQuery) (c : Option String) (env : CallbackEnv)
      (env0 : CallbackEnvP0),
    (env.tokenResult.isOk = false →
      CallbackStep.userinfoCall ∉ (oauthCallbackP1 q c env).calls) ∧
    (CallbackStep.userinfoCall ∈ (oauthCallbackP1 q c env).calls →
      (oauthCallbackP1 q c env).calls = [.tokenCall, .userinfoCall] ∧
      env.tokenResult.isOk = true) ∧
    ((oauthCallbackP1 q c env).calls ≠ [] →
      jsTruthy q.error = false ∧ stateValidB q.state c = true) ∧
    CallbackStep.ledgerMutation ∉ (oauthCallbackP1 q c env).calls ∧
    (env0.tokenResult.isOk = false →
      CallbackStep.userinfoCall ∉ (oauthCallbackP0 q c env0).calls) ∧
    (CallbackStep.userinfoCall ∈ (oauthCallbackP0 q c env0).calls →
      (oauthCallbackP0 q c env0).calls = [.tokenCall, .userinfoCall] ∧
      env0.tokenResult.isOk = true) ∧
    ((oauthCallbackP0 q c env0).calls ≠ [] →
      jsTruthy q.error = false ∧ stateValidB q.state c = true) ∧
    CallbackStep.ledgerMutation ∉ (oauthCallbackP0 q c env0).calls := by
  intro q c env env0
  cases hqe : jsTruthy q.error <;>
  cases hsv : stateValidB q.state c <;>
  cases htr : env.tokenResult <;>
  cases hui : env.userinfoResult <;>
  cases htr0 : env0.tokenResult <;>
  cases hui0 : env0.userinfoResult <;>
  simp [oauthCallbackP1, oauthCallbackP0, hqe, hsv, htr, hui, htr0, hui0,
        FetchSim.isOk]

theorem C4_witness :
    CallbackStep.userinfoCall ∉
      (oauthCallbackP1 fxQuery (some "xyz") fxEnvTokenFail).calls ∧
    (oauthCallbackP1 fxQuery (some "xyz") fxEnvOk).calls =
      [CallbackStep.tokenCall, CallbackStep.userinfoCall] :=
  ⟨(C4_theorem_callback_step_gating fxQuery (some "xyz") fxEnvTokenFail
      fxEnvP0).1 rfl,
   ((C4_theorem_callback_step_gating fxQuery (some "xyz") fxEnvOk
      fxEnvP0).2.1 (by decide)).1⟩

/-- C5 (counterexample): in the index.js callback variant, a userinfo
failure with everything else valid is answered with a raw 500 text
response, not a redirect, so the claim as stated fails on that variant. -/
theorem C5_counterexample_userinfo_failure_raw_500 :
    (oauthCallbackIdx fxQuery (some "xyz") fxEnvUserinfoFail).response =
      .send 500 "Failed to fetch Roblox user info." := rfl

/-- C5 (amended): in the part_001 and part_000 callbacks every flow-state
and provider failure is answered by the redirect carrying its specific
machine-readable error code (reflected provider error, state_mismatch,
token_exchange_failed or _error, userinfo_failed or _error); in the
index.js variant a state mismatch is answered 400 with an inline HTML
message, a failed token exchange with the provider status and a fixed
message, and a thrown exchange or any userinfo failure with a raw 500 —
not a redirect; and in all three variants the raw provider response body
never influences the result, so it is never sent to the browser. -/
theorem C5_theorem_redirects_and_no_body_leak :
    ∀ (q : CallbackQuery) (c : Option String) (env : CallbackEnv)
      (env0 : CallbackEnvP0),
    (jsTruthy q.error = true →
      (oauthCallbackP1 q c env).response =
        .redirect ("/auth?error=" ++ encodeURIComponent (jsOrStr q.error "")) ∧
      (oauthCallbackP0 q c env0).response =
        .redirect ("https://snapbitportal.web.app?error=" ++
          encodeURIComponent (jsOrStr q.error ""))) ∧
    (jsTruthy q.error = false → stateValidB q.state c = false →
      (oauthCallbackP1 q c env).response =
        .redirect "/auth?error=state_mismatch" ∧
      (oauthCallbackP0 q c env0).response =
        .redirect "https://snapbitportal.web.app?error=state_mismatch" ∧
      (oauthCallbackIdx q c env).response =
        .send 400 ("Security check failed (state mismatch).<br>" ++
          "Ensure you accessed via HTTPS and that cookies are enabled.")) ∧
    (∀ st b, jsTruthy q.error = false → stateValidB q.state c = true →
      env.tokenResult = .httpError st b →
      (oauthCallbackP1 q c env).response =
        .redirect "/auth?error=token_exchange_failed" ∧
      (oauthCallbackIdx q c env).response =
        .send st "Failed to exchange code for tokens (see server logs).") ∧
    (jsTruthy q.error = false → stateValidB q.state c = true →
      env.tokenResult = .thrown →
      (oauthCallbackP1 q c env).response =
        .redirect "/auth?error=token_exchange_error" ∧
      (oauthCallbackIdx q c env).response =
        .send 500 "Error during Roblox token exchange.") ∧
    (∀ td st b, jsTruthy q.error = false → stateValidB q.state c = true →
      env.tokenResult = .ok td → env.userinfoResult = .httpError st b →
      (oauthCallbackP1 q c env).response =
        .redirect "/auth?error=userinfo_failed" ∧
      (oauthCallbackIdx q c env).response =
        .send 500 "Failed to fetch Roblox user info.") ∧
    (∀ td, jsTruthy q.error = false → stateValidB q.state c = true →
      env.tokenResult = .ok td → env.userinfoResult = .thrown →
      (oauthCallbackP1 q c env).response =
        .redirect "/auth?error=userinfo_error" ∧
      (oauthCallbackIdx q c env).response =
        .send 500 "Error fetching Roblox user info.") ∧
    (∀ st b, jsTruthy q.error = false → stateValidB q.state c = true →
      env0.tokenResult = .httpError st b →
      (oauthCallbackP0 q c env0).response =
        .redirect "https://snapbitportal.web.app?error=token_exchange_failed") ∧
    (jsTruthy q.error = false → stateValidB q.state c = true →
      env0.tokenResult = .thrown →
      (oauthCallbackP0 q c env0).response =
        .redirect "https://snapbitportal.web.app?error=token_exchange_error") ∧
    (∀ td st b, jsTruthy q.error = false → stateValidB q.state c = true →
      env0.tokenResult = .ok td → env0.userinfoResult = .httpError st b →
      (oauthCallbackP0 q c env0).response =
        .redirect "https://snapbitportal.web.app?error=userinfo_failed") ∧
    (∀ td, jsTruthy q.error = false → stateValidB q.state c = true →
      env0.tokenResult = .ok td → env0.userinfoResult = .thrown →
      (oauthCallbackP0 q c env0).response =
        .redirect "https://snapbitportal.web.app?error=userinfo_error") ∧
    oauthCallbackP1 q c
        { tokenResult := env.tokenResult.scrubBody,
          userinfoResult := env.userinfoResult.scrubBody } =
      oauthCallbackP1 q c env ∧
    oauthCallbackIdx q c
        { tokenResult := env.tokenResult.scrubBody,
          userinfoResult := env.userinfoResult.scrubBody } =
      oauthCallbackIdx q c env ∧
    oauthCallbackP0 q c
        { env0 with tokenResult := env0.tokenResult.scrubBody,
                    userinfoResult := env0.userinfoResult.scrubBody } =
      oauthCallbackP0 q c env0 := by
  intro q c env env0
  refine ⟨?_, ?_, ?_, ?_, ?_, ?_, ?_, ?_, ?_, ?_, ?_, ?_, ?_⟩
  · intro hqe
    constructor <;> simp [oauthCallbackP1, oauthCallbackP0, hqe]
  · intro hqe hsv
    refine ⟨?_, ?_, ?_⟩ <;>
      simp [oauthCallbackP1, oauthCallbackP0, oauthCallbackIdx, hqe, hsv]
  · intro st b hqe hsv htr
    constructor <;> simp [oauthCallbackP1, oauthCallbackIdx, hqe, hsv, htr]
  · intro hqe hsv htr
    constructor <;> simp [oauthCallbackP1, oauthCallbackIdx, hqe, hsv, htr]
  · intro td st b hqe hsv htr hui
    constructor <;>
      simp [oauthCallbackP1, oauthCallbackIdx, hqe, hsv, htr, hui]
  · intro td hqe hsv htr hui
    constructor <;>
      simp [oauthCallbackP1, oauthCallbackIdx, hqe, hsv, htr, hui]
  · intro st b hqe hsv htr0
    simp [oauthCallbackP0, hqe, hsv, htr0]
  · intro hqe hsv htr0
    simp [oauthCallbackP0, hqe, hsv, htr0]
  · intro td st b hqe hsv htr0 hui0
    simp [oauthCallbackP0, hqe, hsv, htr0, hui0]
  · intro td hqe hsv htr0 hui0
    simp [oauthCallbackP0, hqe, hsv, htr0, hui0]
  · cases hqe : jsTruthy q.error <;>
    cases hsv : stateValidB q.state c <;>
    cases htr : env.tokenResult <;>
    cases hui : env.userinfoResult <;>
    simp [oauthCallbackP1, FetchSim.scrubBody, hqe, hsv, htr, hui]
  · cases hqe : jsTruthy q.error <;>
    cases hsv : stateValidB q.state c <;>
    cases htr : env.tokenResult <;>
    cases hui : env.userinfoResult <;>
    simp [oauthCallbackIdx, FetchSim.scrubBody, hqe, hsv, htr, hui]
  · cases hqe : jsTruthy q.error <;>
    cases hsv : stateValidB q.state c <;>
    cases htr0 : env0.tokenResult <;>
    cases hui0 : env0.userinfoResult <;>
    simp [oauthCallbackP0, FetchSim.scrubBody, hqe, hsv, htr0, hui0]

/-- A response is tier-consistent when any league it contains equals
calculateLeague of any balance it reports (as tokens or newTotal). -/
def respLeagueConsistent (resp : LedgerResponse) : Prop :=
  ∀ (l : String) (t : Int),
    lookupField resp.fields "league" = some (.str l) →
    (lookupField resp.fields "tokens" = some (.int t) ∨
     lookupField resp.fields "newTotal" = some (.int t)) →
    l = calculateLeague t

/-- Every record of the store carries the league of its balance. -/
def storeConsistent (s : Store) : Prop :=
  ∀ r ∈ s, r.league = calculateLeague r.tokens

theorem respConsistent_readShape (uid : String) (t : Int) (reg : Bool) :
    respLeagueConsistent
      (.json 200 [("userId", .str uid), ("tokens", .int t),
                  ("league", .str (calculateLeague t)),
                  ("isRegistered", .bool reg)]) := by
  intro l t1 hl ht
  simp [lookupField, LedgerResponse.fields, List.find?] at hl ht
  rw [← hl, ← ht]

theorem respConsistent_addShape (uid : String) (t : Int) :
    respLeagueConsistent
      (.json 200 [("userId", .str uid), ("newTotal", .int t),
                  ("league", .str (calculateLeague t))]) := by
  intro l t1 hl ht
  simp [lookupField, LedgerResponse.fields, List.find?] at hl ht
  rw [← hl, ← ht]

theorem respConsistent_registerShape (uid : String) (reg : Bool) :
    respLeagueConsistent
      (.json 200 [("userId", .str uid), ("isRegistered", .bool reg)]) := by
  intro l t1 hl ht
  simp [lookupField, LedgerResponse.fields, List.find?] at hl

/-- GET /tokens of variant A (src/index.js lines 87-114, identical in
part_003 lines 55-77), after the missing userId check: findOne; if
absent create a zero record; always respond with the stored fields
(userId, tokens, isRegistered, league) with NO league recomputation. -/
def getTokensLegacyOp (s : Store) (u : String) : Store × LedgerResponse :=
  match findRecord s u with
  | none =>
    let record : UserRecord :=
      { userId := u, tokens := 0, league := "Bronze", isRegistered := false }
    (setRecord s record,
     .json 200 [("userId", .str record.userId), ("tokens", .int record.tokens),
                ("isRegistered", .bool record.isRegistered),
                ("league", .str record.league)])
  | some record =>
    (s,
     .json 200 [("userId", .str record.userId), ("tokens", .int record.tokens),
                ("isRegistered", .bool record.isRegistered),
                ("league", .str record.league)])

/-- A stored record whose league is stale relative to its balance. -/
def fxStaleStore : Store :=
  [{ userId := "U1", tokens := 100, league := "Bronze", isRegistered := false }]

/-- C2 (counterexample): the getOrCreate of variant A (src/index.js
lines 87-114) and of part_003 serves the stored league without
recomputation: on a stored record with tokens 100 and league Bronze it
responds league Bronze while that variant's classifier maps 100 to
Sapphire (and calculateLeague maps it to Diamond), and it writes nothing
back — so tier is not recomputed from balance before returning there,
and the response tier differs from classify of the balance it reports. -/
theorem C2_counterexample_legacy_get_stale_tier :
    (getTokensLegacyOp fxStaleStore "U1").2 =
      .json 200 [("userId", .str "U1"), ("tokens", .int 100),
                 ("isRegistered", .bool false), ("league", .str "Bronze")] ∧
    (getTokensLegacyOp fxStaleStore "U1").1 = fxStaleStore ∧
    determineLeague 100 = "Sapphire" ∧
    calculateLeague 100 = "Diamond" ∧
    "Bronze" ≠ "Sapphire" ∧
    "Bronze" ≠ "Diamond" :=
  ⟨rfl, rfl, rfl, rfl, by decide, by decide⟩

/-- C2 (amended): in the full variants (part_000, part_001, index.js
lines 379-451) every response of the three ledger operations is
tier-consistent — any league it carries equals calculateLeague of the
balance it reports (the register response carries neither, so staleness
is unobservable through it) — and every operation preserves the store
invariant that the league of each record equals calculateLeague of its
balance. The variant-A getOrCreate is the exception recorded in the C2
counterexample: it serves the stored league without recomputing. -/
theorem C2_theorem_tier_recomputed_in_responses :
    ∀ (s : Store) (op : LedgerOp),
      respLeagueConsistent (applyOp s op).2 ∧
      (storeConsistent s → storeConsistent (applyOp s op).1) := by
  intro s op
  cases op with
  | read u =>
    simp only [applyOp, getTokensOp]
    cases hf : findRecord s u with
    | none =>
      dsimp only
      constructor
      · exact respConsistent_readShape u 0 false
      · intro hs x hx
        rcases mem_setRecord hx with h1 | h1
        · rw [h1]; rfl
        · exact hs x h1.1
    | some r =>
      dsimp only
      split_ifs with hne
      · constructor
        · exact respConsistent_readShape r.userId r.tokens r.isRegistered
        · intro hs x hx
          rcases mem_setRecord hx with h1 | h1
          · rw [h1]
          · exact hs x h1.1
      · rw [not_not] at hne
        constructor
        · rw [← hne]
          exact respConsistent_readShape r.userId r.tokens r.isRegistered
        · intro hs; exact hs
  | add u amt =>
    simp only [applyOp, addTokensOp]
    cases hf : findRecord s u with
    | none =>
      dsimp only
      split_ifs with hne
      · constructor
        · exact respConsistent_addShape u amt
        · intro hs x hx
          rcases mem_setRecord hx with h1 | h1
          · rw [h1]
          · rcases mem_setRecord h1.1 with h2 | h2
            · rw [h2] at h1
              simp at h1
            · exact hs x h2.1
      · rw [not_not] at hne
        constructor
        · dsimp only
          rw [← hne]
          exact respConsistent_addShape u amt
        · intro hs x hx
          rcases mem_setRecord hx with h1 | h1
          · rw [h1]
            dsimp only
            rw [← hne]
          · exact hs x h1.1
    | some r =>
      dsimp only
      split_ifs with hne
      · constructor
        · exact respConsistent_addShape r.userId (r.tokens + amt)
        · intro hs x hx
          rcases mem_setRecord hx with h1 | h1
          · rw [h1]
          · rcases mem_setRecord h1.1 with h2 | h2
            · rw [h2] at h1
              simp at h1
            · exact hs x h2.1
      · rw [not_not] at hne
        constructor
        · dsimp only
          rw [← hne]
          exact respConsistent_addShape r.userId (r.tokens + amt)
        · intro hs x hx
          rcases mem_setRecord hx with h1 | h1
          · rw [h1]
            dsimp only
            rw [← hne]
          · exact hs x h1.1
  | register u =>
    simp only [applyOp, registerOp]
    cases hf : findRecord s u with
    | none =>
      dsimp only
      constructor
      · exact respConsistent_registerShape u true
      · intro hs x hx
        rcases mem_setRecord hx with h1 | h1
        · rw [h1]; rfl
        · exact hs x h1.1
    | some r =>
      dsimp only
      constructor
      · exact respConsistent_registerShape r.userId true
      · intro hs x hx
        rcases mem_setRecord hx with h1 | h1
        · rw [h1]
          exact hs r (findRecord_mem hf)
        · exact hs x h1.1

theorem C2_witness :
    respLeagueConsistent (applyOp [] (.read "U1")).2 ∧
    storeConsistent (applyOp [] (.read "U1")).1 :=
  ⟨(C2_theorem_tier_recomputed_in_responses [] (.read "U1")).1,
   (C2_theorem_tier_recomputed_in_responses [] (.read "U1")).2
     (fun r hr => absurd hr (List.not_mem_nil r))⟩

/-- C7: for every request whose path is not gate-exempt and whose
Authorization header is absent or differs from Bearer API_KEY, the app
answers 401 with a JSON error body, leaves the store untouched, and runs
no route handler; the three ledger routes are not exempt and /health is. -/
theorem C7_theorem_access_gate_401 :
    (∀ (key : String) (s : Store) (req : HttpRequest),
      gateExempt req.path = false →
      (match req.authHeader with | none => "" | some a => a) ≠ "Bearer " ++ key →
      appHandle key s req =
        (s, .json 401 [("error", .str "Unauthorized")], false)) ∧
    gateExempt "/tokens" = false ∧ gateExempt "/tokens/add" = false ∧
    gateExempt "/tokens/register" = false ∧ gateExempt "/health" = true := by
  refine ⟨?_, by decide, by decide, by decide, by decide⟩
  intro key s req h1 h2
  simp [appHandle, apiKeyGate, h1, h2]

theorem C7_witness :
    appHandle "k" []
        { method := "GET", path := "/tokens",
          authHeader := some "Bearer wrong", queryUserId := none,
          bodyUserId := none, bodyAmount := none } =
      ([], .json 401 [("error", .str "Unauthorized")], false) :=
  C7_theorem_access_gate_401.1 "k" [] _ (by decide) (by decide)

/-- C9: the gate exemption is by path prefix: any path starting with
/auth or /oauth/ skips the shared-secret check entirely (including the
undeclared /authx), and among the remaining paths only the exact
/health is exempt (for example /healthz is not). -/
theorem C9_theorem_gate_prefix_exemption :
    (∀ (key : String) (h : Option String), apiKeyGate key "/authx" h = none) ∧
    (∀ (key p : String) (h : Option String),
      jsStartsWith p "/auth" = true → apiKeyGate key p h = none) ∧
    (∀ (key p : String) (h : Option String),
      jsStartsWith p "/oauth/" = true → apiKeyGate key p h = none) ∧
    (∀ p : String,
      jsStartsWith p "/auth" = false → jsStartsWith p "/oauth/" = false →
      (gateExempt p = true ↔ p = "/health")) ∧
    gateExempt "/healthz" = false := by
  have hx : jsStartsWith "/authx" "/auth" = true := by decide
  refine ⟨?_, ?_, ?_, ?_, by decide⟩
  · intro key h
    simp [apiKeyGate, gateExempt, hx]
  · intro key p h hp
    simp [apiKeyGate, gateExempt, hp]
  · intro key p h hp
    simp [apiKeyGate, gateExempt, hp]
  · intro p h1 h2
    simp [gateExempt, h1, h2]

theorem C9_witness :
    apiKeyGate "k" "/authx" none = none ∧
    apiKeyGate "k" "/oauth/callback" (some "nope") = none ∧
    (gateExempt "/tokens" = true ↔ "/tokens" = "/health") :=
  ⟨C9_theorem_gate_prefix_exemption.1 "k" none,
   C9_theorem_gate_prefix_exemption.2.2.1 "k" "/oauth/callback" (some "nope")
     (by decide),
   C9_theorem_gate_prefix_exemption.2.2.2.1 "/tokens" (by decide) (by decide)⟩

theorem registeredIn_getTokensOp (s : Store) (u v : String)
    (h : isRegisteredIn s u = true) :
    isRegisteredIn (getTokensOp s v).1 u = true := by
  unfold getTokensOp
  cases hf : findRecord s v with
  | none =>
    dsimp only
    rw [isRegisteredIn_setRecord]
    dsimp only
    split_ifs with hvu
    · have hfu : findRecord s u = none := by rw [← hvu]; exact hf
      have h2 : isRegisteredIn s u = false := by unfold isRegisteredIn; rw [hfu]
      rw [h2] at h
      exact Bool.noConfusion h
    · exact h
  | some r =>
    dsimp only
    have hru : r.userId = v := findRecord_userId hf
    split_ifs with hne
    · rw [isRegisteredIn_setRecord]
      dsimp only
      split_ifs with hvu
    -- written record flag is r.isRegistered
      · have hfu : findRecord s u = some r := by rw [← hvu, hru]; exact hf
        have h2 : isRegisteredIn s u = r.isRegistered := by
          unfold isRegisteredIn; rw [hfu]
        rw [h2] at h
        exact h
      · exact h
    · exact h

theorem registeredIn_addTokensOp (s : Store) (u v : String) (amt : Int)
    (h : isRegisteredIn s u = true) :
    isRegisteredIn (addTokensOp s v amt).1 u = true := by
  unfold addTokensOp
  cases hf : findRecord s v with
  | none =>
    dsimp only
    have hvu : ¬ (v = u) := by
      intro e
      have hfu : findRecord s u = none := by rw [← e]; exact hf
      have h2 : isRegisteredIn s u = false := by unfold isRegisteredIn; rw [hfu]
      rw [h2] at h
      exact Bool.noConfusion h
    split_ifs with hne
    · rw [isRegisteredIn_setRecord]
      dsimp only
      rw [if_neg hvu, isRegisteredIn_setRecord]
      dsimp only
      rw [if_neg hvu]
      exact h
    · rw [isRegisteredIn_setRecord]
      dsimp only
      rw [if_neg hvu]
      exact h
  | some r =>
    dsimp only
    have hru : r.userId = v := findRecord_userId hf
    split_ifs with hne
    · rw [isRegisteredIn_setRecord]
      dsimp only
      split_ifs with hvu
      · have hfu : findRecord s u = some r := by rw [← hvu, hru]; exact hf
        have h2 : isRegisteredIn s u = r.isRegistered := by
          unfold isRegisteredIn; rw [hfu]
        rw [h2] at h
        exact h
      · rw [isRegisteredIn_setRecord]
        dsimp only
        rw [if_neg hvu]
        exact h
    · rw [isRegisteredIn_setRecord]
      dsimp only
      split_ifs with hvu
      · have hfu : findRecord s u = some r := by rw [← hvu, hru]; exact hf
        have h2 : isRegisteredIn s u = r.isRegistered := by
          unfold isRegisteredIn; rw [hfu]
        rw [h2] at h
        exact h
      · exact h

theorem registeredIn_registerOp (s : Store) (u v : String)
    (h : isRegisteredIn s u = true) :
    isRegisteredIn (registerOp s v).1 u = true := by
  unfold registerOp
  cases hf : findRecord s v with
  | none =>
    dsimp only
    rw [isRegisteredIn_setRecord]
    dsimp only
    split_ifs with hvu
    · rfl
    · exact h
  | some r =>
    dsimp only
    rw [isRegisteredIn_setRecord]
    dsimp only
    split_ifs with hvu
    · rfl
    · exact h

theorem registeredIn_addTokensLegacyOp (s : Store) (u v : String) (amt : Int)
    (h : isRegisteredIn s u = true) :
    isRegisteredIn (addTokensLegacyOp s v amt).1 u = true := by
  unfold addTokensLegacyOp
  cases hf : findRecord s v with
  | none =>
    dsimp only
    rw [if_neg (by decide : ¬ (false = true))]
    rw [isRegisteredIn_setRecord]
    dsimp only
    split_ifs with hvu
    · rfl
    · exact h
  | some r =>
    dsimp only
    by_cases h0 : r.isRegistered = true
    · rw [if_pos h0]
      rw [isRegisteredIn_setRecord]
      dsimp only
      split_ifs with hvu
      · exact h0
      · exact h
    · rw [if_neg h0]
      rw [isRegisteredIn_setRecord]
      dsimp only
      split_ifs with hvu
      · rfl
      · exact h

/-- C8: registration is monotone — once the stored record of a user has
isRegistered true, no ledger operation of any variant (read, upsert add,
register, or the findOne/save add) ever resets it to false; the OAuth
callbacks never touch the ledger at all (their traces contain no ledger
mutation, per the C4 theorem). -/
theorem C8_theorem_registration_monotone :
    ∀ (s : Store) (u : String),
      isRegisteredIn s u = true →
      (∀ op : LedgerOp, isRegisteredIn (applyOp s op).1 u = true) ∧
      (∀ (v : String) (amt : Int),
        isRegisteredIn (addTokensLegacyOp s v amt).1 u = true) := by
  intro s u h
  constructor
  · intro op
    cases op with
    | read v => exact registeredIn_getTokensOp s u v h
    | add v amt => exact registeredIn_addTokensOp s u v amt h
    | register v => exact registeredIn_registerOp s u v h
  · intro v amt
    exact registeredIn_addTokensLegacyOp s u v amt h

/-- Store fixture with one registered record. -/
def fxRegStore : Store :=
  [{ userId := "U1", tokens := 5, league := "Bronze", isRegistered := true }]

theorem C8_witness :
    isRegisteredIn (applyOp fxRegStore (.add "U1" 7)).1 "U1" = true ∧
    isRegisteredIn (addTokensLegacyOp fxRegStore "V2" 3).1 "U1" = true :=
  ⟨(C8_theorem_registration_monotone fxRegStore "U1" (by decide)).1
     (.add "U1" 7),
   (C8_theorem_registration_monotone fxRegStore "U1" (by decide)).2 "V2" 3⟩

/-- C10: the upsert-based POST /tokens/add modifies only the tokens and
league fields: the registration flag of the target user is exactly what
it was before (false for a fresh user, so an increment alone never marks
anyone registered), the stored record keeps userId equal to the request
key, and the record of every other user is untouched. -/
theorem C10_theorem_add_frame :
    ∀ (s : Store) (u : String) (amt : Int),
      isRegisteredIn (addTokensOp s u amt).1 u = isRegisteredIn s u ∧
      (Option.map (fun r1 => (r1.userId, r1.isRegistered))
          (findRecord (addTokensOp s u amt).1 u) =
        some (u, isRegisteredIn s u)) ∧
      (∀ v, v ≠ u → findRecord (addTokensOp s u amt).1 v = findRecord s v) := by
  intro s u amt
  unfold addTokensOp
  cases hf : findRecord s u with
  | none =>
    dsimp only
    have hreg : isRegisteredIn s u = false := by unfold isRegisteredIn; rw [hf]
    split_ifs with hne
    · refine ⟨?_, ?_, ?_⟩
      · rw [isRegisteredIn_setRecord]
        dsimp only
        rw [if_pos rfl, hreg]
      · rw [findRecord_setRecord]
        dsimp only
        rw [if_pos rfl, hreg]
        rfl
      · intro v hvu
        rw [findRecord_setRecord]
        dsimp only
        rw [if_neg (fun e => hvu e.symm), findRecord_setRecord]
        dsimp only
        rw [if_neg (fun e => hvu e.symm)]
    · refine ⟨?_, ?_, ?_⟩
      · rw [isRegisteredIn_setRecord]
        dsimp only
        rw [if_pos rfl, hreg]
      · rw [findRecord_setRecord]
        dsimp only
        rw [if_pos rfl, hreg]
        rfl
      · intro v hvu
        rw [findRecord_setRecord]
        dsimp only
        rw [if_neg (fun e => hvu e.symm)]
  | some r =>
    dsimp only
    have hru : r.userId = u := findRecord_userId hf
    have hreg : isRegisteredIn s u = r.isRegistered := by
      unfold isRegisteredIn; rw [hf]
    split_ifs with hne
    · refine ⟨?_, ?_, ?_⟩
      · rw [isRegisteredIn_setRecord]
        dsimp only
        rw [if_pos hru, hreg]
      · rw [findRecord_setRecord]
        dsimp only
        rw [if_pos hru, hreg, ← hru]
        rfl
      · intro v hvu
        have hrv : ¬ (r.userId = v) := by rw [hru]; exact fun e => hvu e.symm
        rw [findRecord_setRecord]
        dsimp only
        rw [if_neg hrv, findRecord_setRecord]
        dsimp only
        rw [if_neg hrv]
    · refine ⟨?_, ?_, ?_⟩
      · rw [isRegisteredIn_setRecord]
        dsimp only
        rw [if_pos hru, hreg]
      · rw [findRecord_setRecord]
        dsimp only
        rw [if_pos hru, hreg, ← hru]
        rfl
      · intro v hvu
        have hrv : ¬ (r.userId = v) := by rw [hru]; exact fun e => hvu e.symm
        rw [findRecord_setRecord]
        dsimp only
        rw [if_neg hrv]

theorem C10_witness :
    isRegisteredIn (addTokensOp fxRegStore "U1" 7).1 "U1" =
      isRegisteredIn fxRegStore "U1" ∧
    findRecord (addTokensOp fxRegStore "U1" 7).1 "V2" =
      findRecord fxRegStore "V2" :=
  ⟨(C10_theorem_add_frame fxRegStore "U1" 7).1,
   (C10_theorem_add_frame fxRegStore "U1" 7).2.2 "V2" (by decide)⟩

theorem C3_witness :
    (oauthCallbackP1 fxQuery (some "xyz") fxEnvOk).clearsStateCookie = true :=
  ((C3_theorem_cookie_cleared_only_on_success fxQuery (some "xyz") fxEnvOk
      fxEnvP0).1).mpr ⟨rfl, by decide, rfl, rfl⟩

theorem C5_witness :
    (oauthCallbackP1 fxQuery (some "other") fxEnvOk).response =
      .redirect "/auth?error=state_mismatch" ∧
    (oauthCallbackP1 fxQuery (some "xyz") fxEnvTokenFail).response =
      .redirect "/auth?error=token_exchange_failed" ∧
    (oauthCallbackIdx fxQuery (some "xyz") fxEnvTokenFail).response =
      .send 500 "Failed to exchange code for tokens (see server logs)." :=
  ⟨((C5_theorem_redirects_and_no_body_leak fxQuery (some "other") fxEnvOk
      fxEnvP0).2.1 rfl (by decide)).1,
   ((C5_theorem_redirects_and_no_body_leak fxQuery (some "xyz")
      fxEnvTokenFail fxEnvP0).2.2.1 500 "bad gateway" rfl (by decide) rfl).1,
   ((C5_theorem_redirects_and_no_body_leak fxQuery (some "xyz")
      fxEnvTokenFail fxEnvP0).2.2.1 500 "bad gateway" rfl (by decide) rfl).2⟩
